import Mathlib

/-!
# PicoJuice serial command protocol engine — verification development

A shallow embedding of `main.py` of the PicoJuice firmware: the command
dispatcher (`handle_command`), the per-command handlers, the SAVE
sentinel sub-protocol, bookmark storage and resolution, and the main
loop's marker test (`run_step`).

Python string primitives (`strip`, `split(None, 2)`, `upper`,
`startswith`, `find`, slicing) are modelled character-exactly on
`List Char`.  External collaborators (radio, HTTP client, UDP socket,
file storage) are an explicit `Env` record of pure functions; collaborator
calls whose exceptions the source catches are modelled with `Except`.
Observable side effects (UDP sends, HTTP requests, file writes, lines
sent over the serial link) are recorded in an explicit `Effect` list.
An uncaught Python exception (e.g. `IndexError` from `parts[1]`) is the
`CmdResult.exn` outcome; a read loop that would block forever because
the scripted input is exhausted is `CmdResult.blocked`.
-/

namespace PicoJuice

/-- The six ASCII whitespace characters recognized by Python `str.strip`
and `str.split(None)`. -/
def pyIsSpace (c : Char) : Bool :=
  c = ' ' || c = '\t' || c = '\n' || c = '\r' || c = '\x0b' || c = '\x0c'

/-- `listStarts s pat`: the character list `s` begins with `pat`. -/
def listStarts : List Char → List Char → Bool
  | _, [] => true
  | [], _ :: _ => false
  | c :: cs, p :: ps => c = p && listStarts cs ps

/-- Python `s.startswith(pat)`. -/
def pyStartsWith (s pat : String) : Bool :=
  listStarts s.data pat.data

/-- Python `s.endswith(pat)`. -/
def pyEndsWith (s pat : String) : Bool :=
  listStarts s.data.reverse pat.data.reverse

/-- Index of the first occurrence of `pat` in the character list, if any. -/
def findSubAux (pat : List Char) : List Char → Option Nat
  | [] => if listStarts [] pat then some 0 else none
  | c :: rest =>
    if listStarts (c :: rest) pat then some 0
    else (findSubAux pat rest).map (fun n => n + 1)

/-- Python `s.find(pat)`: first index of `pat` in `s`, `-1` when absent. -/
def pyFind (s pat : String) : Int :=
  match findSubAux pat.data s.data with
  | some n => (n : Int)
  | none => -1

/-- Python `s.strip()` on the underlying characters. -/
def pyStripChars (cs : List Char) : List Char :=
  ((cs.dropWhile pyIsSpace).reverse.dropWhile pyIsSpace).reverse

/-- Python `s.strip()`. -/
def pyStrip (s : String) : String :=
  String.mk (pyStripChars s.data)

/-- Python `s.upper()` (ASCII). -/
def pyToUpper (s : String) : String :=
  String.mk (s.data.map Char.toUpper)

/-- Python slice `s[n:]`. -/
def pyDrop (s : String) (n : Nat) : String :=
  String.mk (s.data.drop n)

/-- Python `s.split(None, 2)`: split on runs of whitespace into at most
three parts; the third part is the whole remainder (leading whitespace
dropped, the rest verbatim).  No empty parts are produced. -/
def pySplitNone2 (s : String) : List String :=
  let cs0 := s.data.dropWhile pyIsSpace
  if cs0.isEmpty then []
  else
    let t1 := cs0.takeWhile (fun c => !pyIsSpace c)
    let r1 := (cs0.dropWhile (fun c => !pyIsSpace c)).dropWhile pyIsSpace
    if r1.isEmpty then [String.mk t1]
    else
      let t2 := r1.takeWhile (fun c => !pyIsSpace c)
      let r2 := (r1.dropWhile (fun c => !pyIsSpace c)).dropWhile pyIsSpace
      if r2.isEmpty then [String.mk t1, String.mk t2]
      else [String.mk t1, String.mk t2, String.mk r2]

/-- Split file content into the lines Python's `for line in f` yields
(terminators kept by Python, but the source immediately `strip()`s, so we
split on the newline and drop a final empty segment; an empty file yields
no lines). -/
def linesAux : List Char → List Char → List (List Char)
  | [], acc => [acc.reverse]
  | c :: rest, acc =>
    if c = '\n' then acc.reverse :: linesAux rest []
    else linesAux rest (c :: acc)

/-- Lines of a stored file as iterated by `for line in f` (before `strip`). -/
def pyFileLines (s : String) : List String :=
  if s.data.isEmpty then []
  else
    let ls := linesAux s.data []
    let ls2 := match ls.getLast? with
      | some [] => ls.dropLast
      | _ => ls
    ls2.map String.mk

/-- Python `int(s)` (base 10): strip whitespace, optional sign, digits. -/
def pyInt (s : String) : Except String Int :=
  let cs := pyStripChars s.data
  let sd : Int × List Char :=
    match cs with
    | '+' :: rest => (1, rest)
    | '-' :: rest => (-1, rest)
    | _ => (1, cs)
  if !sd.2.isEmpty && sd.2.all Char.isDigit then
    .ok (sd.1 * (sd.2.foldl (fun a c => a * 10 + ((c.toNat : Int) - 48)) 0))
  else
    .error ("invalid literal for int() with base 10: " ++ s)

/-- Lower-case hex digit. -/
def hexDigitChar (n : Nat) : Char :=
  if n < 10 then Char.ofNat (48 + n) else Char.ofNat (87 + n)

/-- Python `f"{b:02x}"` for a byte value. -/
def hex2 (b : Nat) : String :=
  String.mk [hexDigitChar (b / 16 % 16), hexDigitChar (b % 16)]

/-- Global constant `VERSION` of `main.py`. -/
def VERSION : String := "0.0.2"

/-- Global constant `DEFAULT_CONTENT_TYPE` of `main.py`. -/
def DEFAULT_CONTENT_TYPE : String := "application/x-www-form-urlencoded"

/-- An observable side effect of command processing. -/
inductive Effect where
  | sendLine (text : String)
  | udpSend (host : String) (port : Int) (payload : String)
  | httpGet (url : String)
  | httpPost (url : String) (body : String) (ctype : String)
  | writeFile (name : String) (content : String)
  | deleteFile (name : String)
  | saveBookmarks (bm : List (String × String))
  deriving DecidableEq

/-- The mutable session record `self.state` plus `self.bookmarks`
(the bookmark dict is an insertion-ordered association list). -/
structure PJState where
  post_data : String
  is_posting : Bool
  is_secure_post : Bool
  post_url : String
  content_type : String
  bookmarks : List (String × String)
  deriving DecidableEq

/-- The external collaborators (radio, HTTP client, UDP socket, file
storage), as pure functions.  `Except.error e` models the collaborator
raising an exception with text `e` at a call site the source wraps in
`try`/`except`. -/
structure Env where
  isConnected : Bool
  ssid : String
  ifconfig : String × String × String
  scanNames : List String
  macBytes : List Nat
  wifiConnectIp : String → String → Option String
  httpGetResult : String → Except String String
  httpPostResult : String → String → String → Except String String
  udpSendResult : String → Int → String → Except String String
  fileRead : String → Option String
  fileDelete : String → Bool
  files : List (String × Nat)

/-- Overwrite-or-append for the bookmark dict (`self.bookmarks[key] = url`). -/
def bmInsert (bm : List (String × String)) (k v : String) : List (String × String) :=
  match bm with
  | [] => [(k, v)]
  | p :: rest => if p.1 = k then (k, v) :: rest else p :: bmInsert rest k v

/-- Python `dict.get(k, d)` on the bookmark association list. -/
def bmGet (bm : List (String × String)) (k d : String) : String :=
  match bm with
  | [] => d
  | p :: rest => if p.1 = k then p.2 else bmGet rest k d

/-- `handle_bookmark`: returns the response line, the updated state, and
whether the bookmark file was (re)written.  The source dumps the dict to
`bookmarks.json` and immediately reloads it (read-after-write round
trip), so the in-memory table after the call is `bmInsert`. -/
def handle_bookmark (st : PJState) (key url : String) : String × PJState × Bool :=
  if pyStartsWith key "**" = false then
    ("'Bookmark keys must start with **", st, false)
  else
    ("'Bookmark saved", { st with bookmarks := bmInsert st.bookmarks key url }, true)

/-- `handle_list_bookmarks`. -/
def handle_list_bookmarks (st : PJState) : String :=
  if st.bookmarks.isEmpty then "'No bookmarks found"
  else String.intercalate "\n" (st.bookmarks.map (fun kv => "'" ++ kv.1 ++ ": " ++ kv.2))

/-- `resolve_bookmark`. -/
def resolve_bookmark (bm : List (String × String)) (url_or_key : String) : String :=
  if pyStartsWith url_or_key "**" then bmGet bm url_or_key url_or_key
  else url_or_key

/-- `get_help_text`. -/
def get_help_text : String :=
  String.intercalate "\n" [
    "'PICOJUICE Commands:",
    "'HELP - Show this help",
    "'VER - Show firmware version",
    "'APL - List available WiFi",
    "'networks",
    "'APC ssid password -",
    "'Connect to WiFi",
    "'APD - Disconnect from WiFi",
    "'API - Show WiFi network",
    "'info",
    "'APS - Show WiFi connection",
    "'status (0/1)",
    "'APW - Show WiFi network",
    "'name",
    "'APR - Reset WiFi",
    "'MAC - Show WiFi MAC",
    "'address",
    "'GET(S) url - HTTP GET(S)",
    "'POST(S) START url - Start",
    "'HTTP POST",
    "'POST(S) END - End HTTP",
    "'POST",
    "'PCT type - Set Content-Type",
    "'UDP ip port message - Send",
    "'UDP",
    "'LOAD filename - Load .IJB",
    "'file",
    "'SAVE filename - Save to",
    "'file",
    "'DIR - List .IJB files",
    "'DEL filename - Delete .IJB",
    "'file",
    "'BOOKMARK **key url - Save",
    "'URL bookmark",
    "'BOOKMARKS - List all saved",
    "'URL bookmarks"]

/-- `handle_apl`: scan results, the associated network starred. -/
def handle_apl (env : Env) : String :=
  String.intercalate "\n" (env.scanNames.map (fun n =>
    "'" ++ (if env.isConnected && n = env.ssid then "*" else "") ++ n))

/-- `wifi_connect`: the bounded association-retry loop, abstracted to the
collaborator outcome (the IP on success, `none` on timeout). -/
def wifi_connect (env : Env) (ssid password : String) : Option String :=
  env.wifiConnectIp ssid password

/-- `handle_apc`. -/
def handle_apc (env : Env) (ssid password : String) : String :=
  match wifi_connect env ssid password with
  | some ip => "'Connected to " ++ ssid ++ ", IP: " ++ ip
  | none => "'Connection failed"

/-- `handle_apd`. -/
def handle_apd : String := "'Disconnected"

/-- `handle_apr`. -/
def handle_apr : String := "'WiFi Reset"

/-- `handle_api`. -/
def handle_api (env : Env) : String :=
  if env.isConnected then
    "'Connected, IP: " ++ env.ifconfig.1 ++ ", Netmask: " ++ env.ifconfig.2.1
      ++ ", Gateway: " ++ env.ifconfig.2.2
  else "'Not connected"

/-- `handle_aps`: the association status, rendered without any marker. -/
def handle_aps (connected : Bool) : String :=
  if connected then "1" else "0"

/-- `handle_apw`. -/
def handle_apw (env : Env) : String :=
  if env.isConnected then "'" ++ env.ssid else "'Not connected"

/-- `get_mac_address`. -/
def get_mac_address (mac : List Nat) : String :=
  "'" ++ String.join (mac.map hex2)

/-- `handle_http`: GET/POST with bookmark resolution, scheme defaulting,
and the `try`/`except` that renders transport errors as a text line. -/
def handle_http (env : Env) (st : PJState) (url : String) (secure : Bool)
    (method : String) (data : String) : String × List Effect :=
  if !env.isConnected then ("'Not Connected", [])
  else
    let r0 := resolve_bookmark st.bookmarks url
    let resolved := if pyStartsWith r0 "http" then r0
      else (if secure then "https://" else "http://") ++ r0
    if method = "GET" then
      match env.httpGetResult resolved with
      | .ok t => (t, [.httpGet resolved])
      | .error e => ("'Error: " ++ e, [.httpGet resolved])
    else
      match env.httpPostResult resolved data st.content_type with
      | .ok t => (t, [.httpPost resolved data st.content_type])
      | .error e => ("'Error: " ++ e, [.httpPost resolved data st.content_type])

/-- `handle_post_start`. -/
def handle_post_start (st : PJState) (url : String) (secure : Bool) :
    String × PJState :=
  ("'Ready for POST data",
    { st with is_posting := true, is_secure_post := secure,
              post_url := url, post_data := "" })

/-- `handle_post_end`. -/
def handle_post_end (env : Env) (st : PJState) : String × PJState × List Effect :=
  if !st.is_posting then ("'No POST in progress", st, [])
  else
    let r := handle_http env st st.post_url st.is_secure_post "POST" st.post_data
    (r.1, { st with is_posting := false, post_data := "" }, r.2)

/-- `handle_pct`. -/
def handle_pct (st : PJState) (ct : String) : String × PJState :=
  ("'Content-Type set", { st with content_type := ct })

/-- `handle_udp`: `int(port)` then `sendto`, inside `try`/`except`. -/
def handle_udp (env : Env) (ip port message : String) : String × List Effect :=
  match pyInt port with
  | .error e => ("'Error: " ++ e, [])
  | .ok p =>
    match env.udpSendResult ip p message with
    | .ok _ => ("'UDP sent", [.udpSend ip p message])
    | .error e => ("'Error: " ++ e, [.udpSend ip p message])

/-- The `while True` read loop of `handle_save` over the scripted input:
the first `OK` is discarded, subsequent non-empty non-`OK` lines are
collected, the second `OK` ends the transfer; `none` when the input is
exhausted first (the real loop would block forever). -/
def save_loop : List String → List String → Bool → Option (List String)
  | [], _, _ => none
  | line :: rest, collected, first_ok =>
    if line = "OK" then
      if first_ok then save_loop rest collected false
      else some collected
    else if line = "" then save_loop rest collected first_ok
    else save_loop rest (collected ++ [line]) first_ok

/-- `handle_save`: sends the `LIST` directive, runs the sentinel loop,
writes the joined lines to `<filename>.IJB`. -/
def handle_save (filename : String) (input : List String) :
    Option (String × List Effect) :=
  (save_loop input [] true).map fun collected =>
    ("'File saved",
      [.sendLine "LIST",
       .writeFile (filename ++ ".IJB") (String.intercalate "\n" collected)])

/-- `handle_dir`. -/
def handle_dir (env : Env) : String :=
  let fs := env.files.filter (fun f => pyEndsWith f.1 ".IJB")
  if fs.isEmpty then "'No .IJB files found"
  else String.intercalate "\n" (fs.map (fun f => "'" ++ f.1 ++ " " ++ toString f.2))

/-- `handle_del`. -/
def handle_del (env : Env) (filename : String) : String × List Effect :=
  if env.fileDelete (filename ++ ".IJB") then
    ("'File deleted", [.deleteFile (filename ++ ".IJB")])
  else ("'Error deleting file", [])

/-- `handle_load`: replays each stored line (stripped) through
`send_response`, then the fixed success line. -/
def handle_load (env : Env) (filename : String) : String × List Effect :=
  match env.fileRead (filename ++ ".IJB") with
  | none => ("'Error loading file", [])
  | some content =>
    ("'File loaded", (pyFileLines content).map (fun l => Effect.sendLine (pyStrip l)))

/-- Outcome of dispatching one command body. -/
inductive CmdResult where
  | resp (r : Option String) (st : PJState) (effs : List Effect)
  | exn
  | blocked
  deriving DecidableEq

/-- The verbs of the `handlers` dict in `handle_command`. -/
def knownVerbs : List String :=
  ["VER", "MAC", "HELP", "APL", "APC", "APD", "APR", "API", "APS", "APW",
   "GET", "GETS", "POST", "POSTS", "PCT", "UDP", "SAVE", "DIR", "DEL",
   "LOAD", "BOOKMARK", "BOOKMARKS"]

/-- The body of each `handlers` entry, dispatched on `parts[0].upper()`.
Guards mirror the source's `len(parts) >= n` tests; an out-of-range
`parts[i]` (only possible in the POST/POSTS lambdas) is `.exn`. -/
def dispatchVerb (env : Env) (st : PJState) (input : List String)
    (command : String) (parts : List String) : CmdResult :=
  if command = "VER" then .resp (some ("'PICOJUICE Version " ++ VERSION)) st []
  else if command = "MAC" then .resp (some (get_mac_address env.macBytes)) st []
  else if command = "HELP" then .resp (some get_help_text) st []
  else if command = "APL" then .resp (some (handle_apl env)) st []
  else if command = "APC" then
    if parts.length ≥ 3 then
      .resp (some (handle_apc env (parts.getD 1 "") (parts.getD 2 ""))) st []
    else .resp (some "Error: Missing parameters") st []
  else if command = "APD" then .resp (some handle_apd) st []
  else if command = "APR" then .resp (some handle_apr) st []
  else if command = "API" then .resp (some (handle_api env)) st []
  else if command = "APS" then .resp (some (handle_aps env.isConnected)) st []
  else if command = "APW" then .resp (some (handle_apw env)) st []
  else if command = "GET" then
    if parts.length ≥ 2 then
      let r := handle_http env st (parts.getD 1 "") false "GET" ""
      .resp (some r.1) st r.2
    else .resp (some "'Error: Missing URL") st []
  else if command = "GETS" then
    if parts.length ≥ 2 then
      let r := handle_http env st (parts.getD 1 "") true "GET" ""
      .resp (some r.1) st r.2
    else .resp (some "'Error: Missing URL") st []
  else if command = "POST" then
    if parts.length ≥ 2 then
      if parts.getD 1 "" = "START" then
        if parts.length ≥ 3 then
          let r := handle_post_start st (parts.getD 2 "") false
          .resp (some r.1) r.2 []
        else .exn
      else if parts.getD 1 "" = "END" then
        let r := handle_post_end env st
        .resp (some r.1) r.2.1 r.2.2
      else .resp (some "'Invalid POST command") st []
    else .exn
  else if command = "POSTS" then
    if parts.length ≥ 2 then
      if parts.getD 1 "" = "START" then
        if parts.length ≥ 3 then
          let r := handle_post_start st (parts.getD 2 "") true
          .resp (some r.1) r.2 []
        else .exn
      else if parts.getD 1 "" = "END" then
        let r := handle_post_end env st
        .resp (some r.1) r.2.1 r.2.2
      else .resp (some "'Invalid POSTS command") st []
    else .exn
  else if command = "PCT" then
    if parts.length ≥ 2 then
      let r := handle_pct st (parts.getD 1 "")
      .resp (some r.1) r.2 []
    else .resp (some "'Error: Missing content type") st []
  else if command = "UDP" then
    if parts.length ≥ 4 then
      let r := handle_udp env (parts.getD 1 "") (parts.getD 2 "") (parts.getD 3 "")
      .resp (some r.1) st r.2
    else .resp (some "'Error: Missing parameters") st []
  else if command = "SAVE" then
    if parts.length ≥ 2 then
      match handle_save (parts.getD 1 "") input with
      | some r => .resp (some r.1) st r.2
      | none => .blocked
    else .resp (some "'Error: Missing filename") st []
  else if command = "DIR" then .resp (some (handle_dir env)) st []
  else if command = "DEL" then
    if parts.length ≥ 2 then
      let r := handle_del env (parts.getD 1 "")
      .resp (some r.1) st r.2
    else .resp (some "'Error: Missing filename") st []
  else if command = "LOAD" then
    if parts.length ≥ 2 then
      let r := handle_load env (parts.getD 1 "")
      .resp (some r.1) st r.2
    else .resp (some "'Error: Missing filename") st []
  else if command = "BOOKMARK" then
    if parts.length ≥ 3 then
      let r := handle_bookmark st (parts.getD 1 "") (parts.getD 2 "")
      .resp (some r.1) r.2.1 (if r.2.2 then [.saveBookmarks r.2.1.bookmarks] else [])
    else .resp (some "'Error: Missing parameters") st []
  else if command = "BOOKMARKS" then .resp (some (handle_list_bookmarks st)) st []
  else .resp none st []

/-- `handle_command`: `parts = cmd.strip().split(None, 2)`, dispatch on
`parts[0].upper()`; `parts[0]` of an empty list is an uncaught
`IndexError`.  `input` is the scripted serial input available to a
nested SAVE transfer. -/
def handle_command (env : Env) (st : PJState) (input : List String)
    (cmd : String) : CmdResult :=
  match pySplitNone2 (pyStrip cmd) with
  | [] => .exn
  | p0 :: rest => dispatchVerb env st input (pyToUpper p0) (p0 :: rest)

/-- One iteration of `run` on a received line: dispatch only when the
line is non-empty and `line.upper().startswith('MJ')`; the command body
is `line[line.upper().find('MJ')+2:]`. -/
def run_step (env : Env) (st : PJState) (input : List String)
    (line : String) : Option CmdResult :=
  if line = "" then none
  else if pyStartsWith (pyToUpper line) "MJ" then
    some (handle_command env st input
      (pyDrop line (Int.toNat (pyFind (pyToUpper line) "MJ" + 2))))
  else none

/-- Modelled from the spec: a line "contains the two-character marker
substring MJ (case-insensitive) anywhere in the line" — the recognition
condition the spec asserts, for comparison with `run_step`. -/
def specContainsMarker (line : String) : Bool :=
  (findSubAux ['M', 'J'] (pyToUpper line).data).isSome

/-- A concrete environment for witnesses. -/
def env0 : Env where
  isConnected := true
  ssid := "net"
  ifconfig := ("10.0.0.2", "255.255.255.0", "10.0.0.1")
  scanNames := []
  macBytes := [0xde, 0xad, 0xbe, 0xef, 0x00, 0x01]
  wifiConnectIp := fun _ _ => none
  httpGetResult := fun _ => .ok "body"
  httpPostResult := fun _ _ _ => .ok "body"
  udpSendResult := fun _ _ _ => .ok ""
  fileRead := fun _ => none
  fileDelete := fun _ => false
  files := []

/-- The session state right after startup. -/
def st0 : PJState where
  post_data := ""
  is_posting := false
  is_secure_post := false
  post_url := ""
  content_type := DEFAULT_CONTENT_TYPE
  bookmarks := []

/-! ## Helper lemmas -/

lemma pySplitNone2_length_le (s : String) : (pySplitNone2 s).length ≤ 3 := by
  simp only [pySplitNone2]
  repeat' split
  all_goals simp

lemma findSubAux_starts {pat cs : List Char} (h : listStarts cs pat = true) :
    findSubAux pat cs = some 0 := by
  cases cs <;> simp [findSubAux, h]

lemma bmGet_insert (bm : List (String × String)) (k v d : String) :
    bmGet (bmInsert bm k v) k d = v := by
  induction bm with
  | nil => simp [bmInsert, bmGet]
  | cons p rest ih =>
    by_cases hp : p.1 = k
    · simp [bmInsert, bmGet, hp]
    · simp [bmInsert, bmGet, hp, ih]

lemma bmGet_not_mem (bm : List (String × String)) (k d : String)
    (h : ∀ p ∈ bm, p.1 ≠ k) : bmGet bm k d = d := by
  induction bm with
  | nil => simp [bmGet]
  | cons p rest ih =>
    have h1 : p.1 ≠ k := h p (by simp)
    rw [bmGet, if_neg h1]
    exact ih (fun q hq => h q (by simp [hq]))

lemma dispatchVerb_ne_exn (env : Env) (st : PJState) (input : List String)
    (parts : List String) (v : String) (hk : v ∈ knownVerbs)
    (hp : v ≠ "POST") (hps : v ≠ "POSTS") :
    dispatchVerb env st input v parts ≠ CmdResult.exn := by
  simp only [knownVerbs, List.mem_cons, List.not_mem_nil, or_false] at hk
  rcases hk with rfl|rfl|rfl|rfl|rfl|rfl|rfl|rfl|rfl|rfl|rfl|rfl|rfl|rfl|rfl|rfl|rfl|rfl|rfl|rfl|rfl|rfl
  all_goals try exact absurd rfl hp
  all_goals try exact absurd rfl hps
  all_goals intro hx
  all_goals simp [dispatchVerb] at hx
  all_goals repeat' split at hx
  all_goals simp_all

lemma dispatchVerb_unknown {env : Env} {st : PJState} {input : List String}
    {command : String} {parts : List String} (h : command ∉ knownVerbs) :
    dispatchVerb env st input command parts = .resp none st [] := by
  simp only [knownVerbs, List.mem_cons, List.not_mem_nil, or_false, not_or] at h
  obtain ⟨h1, h2, h3, h4, h5, h6, h7, h8, h9, h10, h11, h12, h13, h14, h15,
    h16, h17, h18, h19, h20, h21, h22⟩ := h
  simp [dispatchVerb, h1, h2, h3, h4, h5, h6, h7, h8, h9, h10, h11, h12, h13,
    h14, h15, h16, h17, h18, h19, h20, h21, h22]

lemma save_loop_after_first (mid : List String) :
    ∀ acc : List String, "OK" ∉ mid →
      save_loop (mid ++ ["OK"]) acc false =
        some (acc ++ mid.filter (fun l => l != "")) := by
  induction mid with
  | nil => intro acc _; simp [save_loop]
  | cons l rest ih =>
    intro acc h
    simp only [List.mem_cons, not_or] at h
    obtain ⟨h1, h2⟩ := h
    have h1' : l ≠ "OK" := fun he => h1 he.symm
    have step : save_loop ((l :: rest) ++ ["OK"]) acc false =
        (if l = "OK" then some acc
         else if l = "" then save_loop (rest ++ ["OK"]) acc false
         else save_loop (rest ++ ["OK"]) (acc ++ [l]) false) := rfl
    rw [step, if_neg h1']
    by_cases he : l = ""
    · rw [if_pos he, ih acc h2]
      subst he
      simp
    · rw [if_neg he, ih (acc ++ [l]) h2]
      simp [List.filter_cons, he]

lemma handle_command_cons {env : Env} {st : PJState} {input : List String}
    {cmd p0 : String} {rest : List String}
    (hlist : pySplitNone2 (pyStrip cmd) = p0 :: rest) :
    handle_command env st input cmd
      = dispatchVerb env st input (pyToUpper p0) (p0 :: rest) := by
  unfold handle_command
  rw [hlist]

/-- General form behind claim C1: whatever the arguments, a command whose
verb is UDP answers the missing-parameters text and produces no effect,
because `split(None, 2)` yields at most three tokens while the guard
demands four. -/
lemma udp_guard_unreachable (env : Env) (st : PJState) (input : List String)
    (cmd p0 : String) (rest : List String)
    (hlist : pySplitNone2 (pyStrip cmd) = p0 :: rest)
    (hv : pyToUpper p0 = "UDP") :
    handle_command env st input cmd
      = CmdResult.resp (some "'Error: Missing parameters") st [] := by
  have hlen : (p0 :: rest).length ≤ 3 := by
    rw [← hlist]; exact pySplitNone2_length_le (pyStrip cmd)
  have hnot : ¬ ((p0 :: rest).length ≥ 4) := by omega
  rw [handle_command_cons hlist, hv]
  have step : dispatchVerb env st input "UDP" (p0 :: rest) =
      (if (p0 :: rest).length ≥ 4 then
        CmdResult.resp
          (some (handle_udp env ((p0 :: rest).getD 1 "") ((p0 :: rest).getD 2 "")
            ((p0 :: rest).getD 3 "")).1)
          st
          (handle_udp env ((p0 :: rest).getD 1 "") ((p0 :: rest).getD 2 "")
            ((p0 :: rest).getD 3 "")).2
      else CmdResult.resp (some "'Error: Missing parameters") st []) := rfl
  rw [step, if_neg hnot]

/-! ## Claims -/

/-- C1: the spec says a UDP command carrying host, port and payload makes
the dispatcher invoke the UDP sender once with those arguments.  The code
cannot: `parts = cmd.strip().split(None, 2)` has at most three elements,
so the `len(parts) >= 4` guard of the UDP entry always fails and the
dispatcher returns the missing-parameters text, with no `udpSend` effect
and `handle_udp` unreachable — contradicting the source's own HELP text
(`UDP ip port message - Send UDP`). -/
theorem C1_udp_dispatch_never_sends :
    handle_command env0 st0 [] "UDP 127.0.0.1 5000 hello"
      = CmdResult.resp (some "'Error: Missing parameters") st0 [] := by
  decide

/-- C2 counterexample: the line `XMJVER` contains the marker `MJ`
(case-insensitively) — the spec's recognition condition — yet the main
loop does not dispatch it, because the code requires the line to *start*
with the marker (`line.upper().startswith('MJ')`), not merely contain
it. -/
theorem C2_counterexample :
    specContainsMarker "XMJVER" = true ∧ run_step env0 st0 [] "XMJVER" = none :=
  ⟨by decide, rfl⟩

/-- C2 (amended): a received line is dispatched iff it is non-empty and
begins, case-insensitively, with the marker `MJ`; the command body is
then everything after that leading two-character marker. -/
theorem C2_marker_gate :
    ∀ (env : Env) (st : PJState) (input : List String) (line : String),
      (run_step env st input line = none
          ↔ ¬(line ≠ "" ∧ pyStartsWith (pyToUpper line) "MJ" = true))
      ∧ (pyStartsWith (pyToUpper line) "MJ" = true → line ≠ "" →
          run_step env st input line
            = some (handle_command env st input (pyDrop line 2))) := by
  intro env st input line
  constructor
  · unfold run_step
    by_cases h0 : line = ""
    · simp [h0]
    · by_cases h1 : pyStartsWith (pyToUpper line) "MJ" = true
      · simp [h0, h1]
      · simp [h0, h1]
  · intro h1 h0
    have hfind : pyFind (pyToUpper line) "MJ" = 0 := by
      have hs : listStarts (pyToUpper line).data ("MJ" : String).data = true := h1
      unfold pyFind
      rw [findSubAux_starts hs]
      rfl
    unfold run_step
    rw [if_neg h0, if_pos h1, hfind]
    rfl

/-- C2 witness: a marker-led line is dispatched with body `line[2:]`. -/
theorem C2_marker_gate_witness :
    run_step env0 st0 [] "MJVER"
      = some (handle_command env0 st0 [] (pyDrop "MJVER" 2)) :=
  (C2_marker_gate env0 st0 [] "MJVER").2 (by decide) (by decide)

/-- C3 counterexample: the body `POST` is a known verb with too few
tokens, and its handler lambda evaluates `parts[1]`, an uncaught
`IndexError` that escapes `handle_command` and kills the main loop. -/
theorem C3_counterexample :
    handle_command env0 st0 [] "POST" = CmdResult.exn := rfl

/-- C3 (amended): every known verb other than POST/POSTS dispatches
without an uncaught exception whatever its arguments (arity failures are
turned into fixed text responses, collaborator errors are caught inside
the handlers); but POST/POSTS with fewer than two tokens, or
POST/POSTS START without a URL, raise an uncaught IndexError. -/
theorem C3_dispatch_total_except_post :
    (∀ (env : Env) (st : PJState) (input : List String) (cmd v : String),
        (pySplitNone2 (pyStrip cmd)).head?.map pyToUpper = some v →
        v ∈ knownVerbs → v ≠ "POST" → v ≠ "POSTS" →
        handle_command env st input cmd ≠ CmdResult.exn)
    ∧ (∀ (env : Env) (st : PJState) (input : List String),
        handle_command env st input "POST" = CmdResult.exn ∧
        handle_command env st input "POSTS" = CmdResult.exn ∧
        handle_command env st input "POST START" = CmdResult.exn ∧
        handle_command env st input "POSTS START" = CmdResult.exn) := by
  constructor
  · intro env st input cmd v hv hk hp hps
    cases hl : pySplitNone2 (pyStrip cmd) with
    | nil => rw [hl] at hv; simp at hv
    | cons p0 rest =>
      rw [hl] at hv
      have hv' : pyToUpper p0 = v := by simpa using hv
      rw [handle_command_cons hl, hv']
      exact dispatchVerb_ne_exn env st input (p0 :: rest) v hk hp hps
  · exact fun env st input => ⟨rfl, rfl, rfl, rfl⟩

/-- C3 witness: a 0-argument known verb dispatches without exception. -/
theorem C3_dispatch_total_witness :
    handle_command env0 st0 [] "VER" ≠ CmdResult.exn :=
  C3_dispatch_total_except_post.1 env0 st0 [] "VER" "VER"
    (by decide) (by decide) (by decide) (by decide)

/-- C4 counterexample: the APS status reply is the bare `"1"`/`"0"` with
no leading apostrophe marker, so not every emitted data/status line
begins with the marker character. -/
theorem C4_counterexample :
    handle_command env0 st0 [] "APS" = CmdResult.resp (some "1") st0 []
      ∧ pyStartsWith "1" "'" = false :=
  ⟨by decide, by decide⟩

/-- C4 (amended): fixed data/status replies begin with the apostrophe
marker, except the APS reply (bare `1`/`0`) and the APC
missing-parameters reply (`Error: Missing parameters`, no marker); the
other missing-parameter replies do carry the marker, and LOAD replays
the stored lines verbatim (stripped), so a replayed line carries the
marker only when the stored text does. -/
theorem C4_marker_convention :
    (∀ c : Bool, pyStartsWith (handle_aps c) "'" = false)
    ∧ (∀ (env : Env) (st : PJState) (input : List String),
        handle_command env st input "APC"
          = CmdResult.resp (some "Error: Missing parameters") st [])
    ∧ pyStartsWith "Error: Missing parameters" "'" = false
    ∧ (∀ (env : Env) (st : PJState) (input : List String),
        handle_command env st input "UDP"
            = CmdResult.resp (some "'Error: Missing parameters") st []
        ∧ handle_command env st input "BOOKMARK"
            = CmdResult.resp (some "'Error: Missing parameters") st []
        ∧ handle_command env st input "GET"
            = CmdResult.resp (some "'Error: Missing URL") st []
        ∧ handle_command env st input "PCT"
            = CmdResult.resp (some "'Error: Missing content type") st []
        ∧ handle_command env st input "SAVE"
            = CmdResult.resp (some "'Error: Missing filename") st []
        ∧ handle_command env st input "DEL"
            = CmdResult.resp (some "'Error: Missing filename") st []
        ∧ handle_command env st input "LOAD"
            = CmdResult.resp (some "'Error: Missing filename") st [])
    ∧ pyStartsWith "'Error: Missing parameters" "'" = true
    ∧ pyStartsWith "'Error: Missing URL" "'" = true
    ∧ pyStartsWith "'Error: Missing content type" "'" = true
    ∧ pyStartsWith "'Error: Missing filename" "'" = true
    ∧ (∀ (env : Env) (filename content : String),
        handle_load { env with fileRead := fun _ => some content } filename
          = ("'File loaded",
              (pyFileLines content).map (fun l => Effect.sendLine (pyStrip l))))
    ∧ (handle_load { env0 with fileRead := fun _ => some "X" } "f"
          = ("'File loaded", [Effect.sendLine "X"])
        ∧ pyStartsWith "X" "'" = false) := by
  refine ⟨by decide, fun env st input => rfl, by decide,
    fun env st input => ⟨rfl, rfl, rfl, rfl, rfl, rfl, rfl⟩,
    by decide, by decide, by decide, by decide,
    fun env filename content => rfl, by decide, by decide⟩

/-- C5: the SAVE protocol on the scripted inputs of the claim — the
first `OK` is the absorbed echo of the LIST directive, the lines `A`
and `B` accumulate, the second `OK` ends the transfer and the stored
program written to `<filename>.IJB` is exactly `A\nB`; with no lines
between the two `OK`s the stored program is empty. -/
theorem C5_save_protocol (filename : String) :
    handle_save filename ["OK", "A", "B", "OK"]
        = some ("'File saved",
            [.sendLine "LIST", .writeFile (filename ++ ".IJB") "A\nB"])
    ∧ handle_save filename ["OK", "OK"]
        = some ("'File saved",
            [.sendLine "LIST", .writeFile (filename ++ ".IJB") ""])
    ∧ (∀ (env : Env) (st : PJState),
        handle_command env st ["OK", "A", "B", "OK"] "SAVE prog"
          = CmdResult.resp (some "'File saved") st
              [.sendLine "LIST", .writeFile "prog.IJB" "A\nB"]) :=
  ⟨rfl, rfl, fun _ _ => rfl⟩

/-- C6 counterexample: during a SAVE transfer an empty received line is
*not* appended — the accumulated content for `OK, A, , B, OK` is
`A\nB`, not the `A\n\nB` the claim requires (`elif line:` skips empty
lines). -/
theorem C6_counterexample :
    handle_save "f" ["OK", "A", "", "B", "OK"]
        = some ("'File saved", [.sendLine "LIST", .writeFile "f.IJB" "A\nB"])
      ∧ ("A\nB" : String) ≠ "A\n\nB" :=
  ⟨by decide, by decide⟩

/-- C6 (amended): every received line that is neither the sentinel `OK`
nor empty is appended, in arrival order, to the buffer written to the
stored program; empty lines are discarded. -/
theorem C6_nonempty_lines_appended (filename : String) (mid : List String)
    (h : "OK" ∉ mid) :
    handle_save filename ("OK" :: (mid ++ ["OK"]))
      = some ("'File saved",
          [.sendLine "LIST",
           .writeFile (filename ++ ".IJB")
             (String.intercalate "\n" (mid.filter (fun l => l != "")))]) := by
  unfold handle_save
  have h0 : save_loop ("OK" :: (mid ++ ["OK"])) [] true
      = save_loop (mid ++ ["OK"]) [] false := rfl
  rw [h0, save_loop_after_first mid [] h]
  simp

/-- C6 witness: the amended statement at a concrete transfer. -/
theorem C6_nonempty_lines_appended_witness :
    handle_save "f" ("OK" :: (["A", "", "B"] ++ ["OK"]))
      = some ("'File saved",
          [.sendLine "LIST",
           .writeFile ("f" ++ ".IJB")
             (String.intercalate "\n"
               (["A", "", "B"].filter (fun l => l != "")))]) :=
  C6_nonempty_lines_appended "f" ["A", "", "B"] (by decide)

/-- C7: a command line whose verb is not in the command table yields
`None` from `handle_command` — no response, no state change, no effect —
and the `if response:` guard of the main loop then sends nothing. -/
theorem C7_unknown_verb_silent (env : Env) (st : PJState) (input : List String)
    (cmd p0 : String) (rest : List String)
    (hlist : pySplitNone2 (pyStrip cmd) = p0 :: rest)
    (hk : pyToUpper p0 ∉ knownVerbs) :
    handle_command env st input cmd = CmdResult.resp none st [] := by
  rw [handle_command_cons hlist]
  exact dispatchVerb_unknown hk

/-- C7 witness: an unknown verb produces no response. -/
theorem C7_unknown_verb_silent_witness :
    handle_command env0 st0 [] "FOO bar" = CmdResult.resp none st0 [] :=
  C7_unknown_verb_silent env0 st0 [] "FOO bar" "FOO" ["bar"]
    (by decide) (by decide)

/-- C8: bookmark round-trip — storing `**k ↦ u` with `handle_bookmark`
and then resolving `**k` yields `u`; and any key with no stored mapping
resolves to itself unchanged (sigil-led keys fall back via `dict.get`,
other keys are returned literally). -/
theorem C8_bookmark_roundtrip :
    (∀ (st : PJState) (key url : String), pyStartsWith key "**" = true →
        resolve_bookmark ((handle_bookmark st key url).2.1).bookmarks key = url)
    ∧ (∀ (bm : List (String × String)) (key : String),
        (∀ p ∈ bm, p.1 ≠ key) → resolve_bookmark bm key = key) := by
  constructor
  · intro st key url h
    simp [handle_bookmark, h, resolve_bookmark, bmGet_insert]
  · intro bm key h
    unfold resolve_bookmark
    split
    · exact bmGet_not_mem bm key key h
    · rfl

/-- C8 witness: the round trip and the fallback at concrete inputs. -/
theorem C8_bookmark_roundtrip_witness :
    resolve_bookmark ((handle_bookmark st0 "**k" "u").2.1).bookmarks "**k" = "u"
      ∧ resolve_bookmark [("**a", "x")] "**z" = "**z" :=
  ⟨C8_bookmark_roundtrip.1 st0 "**k" "u" (by decide),
   C8_bookmark_roundtrip.2 [("**a", "x")] "**z" (by decide)⟩

/-- C9: a bookmark key without the `**` sigil is rejected with the fixed
text; the state (hence the in-memory table) is returned unchanged and
the persistence flag is `false` — `bookmarks.json` is never written. -/
theorem C9_bookmark_rejected (st : PJState) (key url : String)
    (h : pyStartsWith key "**" = false) :
    handle_bookmark st key url
      = ("'Bookmark keys must start with **", st, false) := by
  simp [handle_bookmark, h]

/-- C9 witness: rejection at a concrete sigil-less key. -/
theorem C9_bookmark_rejected_witness :
    handle_bookmark st0 "k" "u"
      = ("'Bookmark keys must start with **", st0, false) :=
  C9_bookmark_rejected st0 "k" "u" (by decide)

/-- C10: `POST END` (and `POSTS END`) with no POST session in progress
returns the fixed `'No POST in progress` text, performs no HTTP request
(empty effect list) and leaves the session state untouched. -/
theorem C10_post_end_no_session (env : Env) (st : PJState)
    (input : List String) (h : st.is_posting = false) :
    handle_post_end env st = ("'No POST in progress", st, [])
    ∧ handle_command env st input "POST END"
        = CmdResult.resp (some "'No POST in progress") st []
    ∧ handle_command env st input "POSTS END"
        = CmdResult.resp (some "'No POST in progress") st [] := by
  have key : handle_post_end env st = ("'No POST in progress", st, []) := by
    simp [handle_post_end, h]
  refine ⟨key, ?_, ?_⟩
  · have hred : handle_command env st input "POST END"
        = CmdResult.resp (some (handle_post_end env st).1)
            (handle_post_end env st).2.1 (handle_post_end env st).2.2 := rfl
    rw [hred, key]
  · have hred : handle_command env st input "POSTS END"
        = CmdResult.resp (some (handle_post_end env st).1)
            (handle_post_end env st).2.1 (handle_post_end env st).2.2 := rfl
    rw [hred, key]

/-- C10 witness: at the startup state (no session in progress). -/
theorem C10_post_end_no_session_witness :
    handle_post_end env0 st0 = ("'No POST in progress", st0, []) :=
  (C10_post_end_no_session env0 st0 [] rfl).1

end PicoJuice
